import Mathlib

/-!
Verification of the geotechnical calculation pipeline in `soil4.py`:
soil classification from Atterberg limits and grain-size data, seismic
zone / peak ground acceleration mapping, and the simplified Seed–Idriss
liquefaction factor-of-safety computation.

The classifier and the seismic mapper are embedded over `ℚ` (all their
arithmetic is exact rational arithmetic), the liquefaction evaluator over
`ℝ` (it takes a square root).
-/

/-- A soil sample: Atterberg limits and grain-size data, as read by the
Step 1 form (`ll`, `pl`, `fines`, `d10`, `d30`, `d60`). -/
structure SoilSample where
  liquidLimit : ℚ
  plasticLimit : ℚ
  finesPercent : ℚ
  D10 : ℚ
  D30 : ℚ
  D60 : ℚ
deriving DecidableEq

/-- The five soil type codes the classifier can emit (the code tags each
with a human label string; only the code decides later branches). -/
inductive SoilType
  | CL
  | ML
  | SM
  | SW
  | SP
deriving DecidableEq

/-- The two validation failures of the Classify Soil handler, each naming
the violated constraint (lines 41–44 of `soil4.py`). -/
inductive ValidationError
  | llLessThanPl
  | dEqualsZero
deriving DecidableEq

/-- The Classify Soil handler (lines 40–65 of `soil4.py`): validation
first, then the first-match classification cascade on `fines`, `PI`,
`cu`, `cc`. -/
def classify (s : SoilSample) : Except ValidationError SoilType :=
  if s.liquidLimit < s.plasticLimit then .error .llLessThanPl
  else if s.D10 = 0 ∨ s.D30 = 0 ∨ s.D60 = 0 then .error .dEqualsZero
  else
    let PI := s.liquidLimit - s.plasticLimit
    let cu := s.D60 / s.D10
    let cc := s.D30 ^ 2 / (s.D10 * s.D60)
    if s.finesPercent > 50 then
      if PI > 7 then .ok .CL else .ok .ML
    else if s.finesPercent > 12 then .ok .SM
    else if cu > 4 ∧ 1 < cc ∧ cc < 3 then .ok .SW
    else .ok .SP

/-- Modelled from the spec: the classification rule list of §4.1 written
as the spec states it (first match wins, strict inequalities, derived
quantities PI = LL − PL, Cu = D60/D10, Cc = D30²/(D10·D60)). Reference
definition for the refinement claim about `classify`. -/
def specClassify (s : SoilSample) : SoilType :=
  if s.finesPercent > 50 then
    if s.liquidLimit - s.plasticLimit > 7 then .CL else .ML
  else if s.finesPercent > 12 then .SM
  else if s.D60 / s.D10 > 4 ∧ 1 < s.D30 ^ 2 / (s.D10 * s.D60)
      ∧ s.D30 ^ 2 / (s.D10 * s.D60) < 3 then .SW
  else .SP

/-- The seismic zones named by the Step 2 zone-factor table. -/
inductive SeismicZone
  | II
  | III
  | IV
  | V
deriving DecidableEq

/-- Zone mapping of Step 2 (lines 77–82): the code branches on which soil
code appears in the label string; on the five codes that is exactly this
function. -/
def mapZone : SoilType → SeismicZone
  | .CL => .III
  | .ML => .IV
  | .SM => .IV
  | .SW => .II
  | .SP => .II

/-- The `zone_factors` table of line 84. -/
def zoneFactor : SeismicZone → ℚ
  | .II => 0.10
  | .III => 0.16
  | .IV => 0.24
  | .V => 0.36

/-- Amplification factor S (lines 87–92): 1.5 for CL/ML, 1.2 for SM,
else 1.0. -/
def amplification : SoilType → ℚ
  | .CL => 1.5
  | .ML => 1.5
  | .SM => 1.2
  | .SW => 1.0
  | .SP => 1.0

/-- Peak ground acceleration and its ratio to g (lines 94–95):
`amax = Z * S * 9.81`, `amax_g = amax / 9.81`. -/
structure GroundMotion where
  amax : ℚ
  amax_g : ℚ
deriving DecidableEq

/-- Lines 94–95 of `soil4.py`. -/
def groundMotion (z : SeismicZone) (S : ℚ) : GroundMotion :=
  let amax := zoneFactor z * S * 9.81
  ⟨amax, amax / 9.81⟩

/-- The acceleration ratio the pipeline hands to Step 3 for a given
classified soil type (Step 2 composed end to end). -/
def pipelineAmaxG (t : SoilType) : ℚ :=
  (groundMotion (mapZone t) (amplification t)).amax_g

/-- Site data read by the Step 3 form: depth, unit weight, water table
depth and the SPT blow count (an integer input). -/
structure SiteProfile where
  depth : ℝ
  unitWeight : ℝ
  waterTableDepth : ℝ
  sptN : ℕ

/-- The single failure of the Step 3 evaluator: invalid effective stress
(line 148 of `soil4.py`). -/
inductive EvalError
  | invalidStress
deriving DecidableEq

/-- All quantities the Step 3 evaluator reports (lines 121–144). -/
structure LiquefactionResult where
  sigmaV : ℝ
  sigmaVeff : ℝ
  rd : ℝ
  Cn : ℝ
  N160 : ℝ
  CSR : ℝ
  CRR : ℝ
  FS : ℝ
  likely : Prop

noncomputable section

/-- Line 121: total vertical stress `σv = gamma * depth`. -/
def totalStress (p : SiteProfile) : ℝ :=
  p.unitWeight * p.depth

/-- Line 122: effective vertical stress
`σv_eff = σv - 9.81 * (depth - gw_depth if depth > gw_depth else 0)`. -/
def effStress (p : SiteProfile) : ℝ :=
  totalStress p -
    9.81 * (if p.depth > p.waterTableDepth then p.depth - p.waterTableDepth else 0)

/-- Line 123: stress reduction factor `rd = max(1.0 - 0.00765 * depth, 0.5)`. -/
def rd (p : SiteProfile) : ℝ :=
  max (1.0 - 0.00765 * p.depth) 0.5

/-- Line 124: overburden correction
`Cn = (100 / σv_eff) ** 0.5 if σv_eff > 0 else 0`. -/
def Cn (p : SiteProfile) : ℝ :=
  if 0 < effStress p then Real.sqrt (100 / effStress p) else 0

/-- Line 125: corrected blow count `N1_60 = n_value * Cn`. -/
def N1_60 (p : SiteProfile) : ℝ :=
  (p.sptN : ℝ) * Cn p

/-- Line 128: cyclic stress ratio
`CSR = 0.65 * amax_g * (σv / σv_eff) * rd`. -/
def CSR (p : SiteProfile) (amax_g : ℝ) : ℝ :=
  0.65 * amax_g * (totalStress p / effStress p) * rd p

/-- Line 129: cyclic resistance ratio
`CRR_7_5 = 1/(34 - N1_60) + N1_60/135 + 50/(10*N1_60 + 45)^2 - 1/200`.
This is the value of the expression under Lean's total division
(`x / 0 = 0`); Python instead raises `ZeroDivisionError` when
`34 - N1_60 = 0` (or when `(10*N1_60 + 45)^2 = 0`), which the execution
model `evaluateRun` accounts for. -/
def CRR (p : SiteProfile) : ℝ :=
  1 / (34 - N1_60 p) + N1_60 p / 135 + 50 / (10 * N1_60 p + 45) ^ 2 - 1 / 200

/-- Line 131: factor of safety `FS = CRR / CSR`, again under Lean's total
division; Python raises `ZeroDivisionError` when `CSR = 0`, which the
execution model `evaluateRun` accounts for. -/
def FS (p : SiteProfile) (amax_g : ℝ) : ℝ :=
  CRR p / CSR p amax_g

/-- Step 3 of `soil4.py` (lines 121–148) at the level of values: the
guard `σv_eff > 0` selects between the full result report and the
invalid-stress error message; `likely` records the strict `FS < 1`
verdict of lines 143–146. Divisions are Lean's total division here;
`evaluateRun` is the same step with Python's raising division. -/
def evaluate (p : SiteProfile) (amax_g : ℝ) : Except EvalError LiquefactionResult :=
  if 0 < effStress p then
    .ok ⟨totalStress p, effStress p, rd p, Cn p, N1_60 p, CSR p amax_g, CRR p,
      FS p amax_g, FS p amax_g < 1⟩
  else .error .invalidStress

/-- Modelled from the spec: the LiquefactionEvaluator result fields as §4.3
states them, steps 1–10 with `max(depth − waterTableDepth, 0)` and
`Cn = sqrt(100/σv′)`. Reference definition for the refinement claim about
the evaluator; §4.3 step 9 leaves `fs` undefined when `csr = 0`, so the
refinement theorem only invokes this definition with nonzero `csr`. -/
def specResult (p : SiteProfile) (amax_g : ℝ) : LiquefactionResult :=
  let sv := p.unitWeight * p.depth
  let svEff := sv - 9.81 * max (p.depth - p.waterTableDepth) 0
  let rdv := max (1.0 - 0.00765 * p.depth) 0.5
  let cn := Real.sqrt (100 / svEff)
  let n160 := (p.sptN : ℝ) * cn
  let csr := 0.65 * amax_g * (sv / svEff) * rdv
  let crr := 1 / (34 - n160) + n160 / 135 + 50 / (10 * n160 + 45) ^ 2 - 1 / 200
  let fs := crr / csr
  ⟨sv, svEff, rdv, cn, n160, csr, crr, fs, fs < 1⟩

/-- Projection used to observe the corrected blow count of a successful
evaluation. -/
def resultN160 : Except EvalError LiquefactionResult → Option ℝ
  | .ok r => some r.N160
  | .error _ => none

/-- Step 3 of `soil4.py` as Python executes it: `x / y` raises an
unhandled `ZeroDivisionError` when `y = 0`, aborting the script with no
reported result. `none` marks those aborts: line 129 when
`34 - N1_60 = 0` or `(10 * N1_60 + 45)^2 = 0`, and line 131 when
`CSR = 0` (the divisions of lines 122–128 have nonzero denominators once
the `σv_eff > 0` guard holds). On every completing input the outcome is
that of `evaluate`. -/
def evaluateRun (p : SiteProfile) (amax_g : ℝ) :
    Option (Except EvalError LiquefactionResult) :=
  if 0 < effStress p then
    if 34 - N1_60 p = 0 then none
    else if (10 * N1_60 p + 45) ^ 2 = 0 then none
    else if CSR p amax_g = 0 then none
    else
      some (.ok ⟨totalStress p, effStress p, rd p, Cn p, N1_60 p, CSR p amax_g,
        CRR p, FS p amax_g, FS p amax_g < 1⟩)
  else some (.error .invalidStress)

end

theorem effStress_eq_max (p : SiteProfile) :
    effStress p = totalStress p - 9.81 * max (p.depth - p.waterTableDepth) 0 := by
  unfold effStress
  by_cases h : p.depth > p.waterTableDepth
  · rw [if_pos h, max_eq_left (by linarith)]
  · rw [if_neg h, max_eq_right (by push_neg at h; linarith)]

/-- Claim C1: for every SoilSample satisfying the preconditions
(liquidLimit ≥ plasticLimit and D10, D30, D60 > 0), `classify` returns
exactly the first match of the spec's rule cascade with strict
inequalities (`specClassify`); in particular `finesPercent = 50` falls
to the coarse-grained branch and is never classified CL or ML. -/
theorem classify_follows_spec_rules (s : SoilSample)
    (hpl : s.plasticLimit ≤ s.liquidLimit)
    (h10 : 0 < s.D10) (h30 : 0 < s.D30) (h60 : 0 < s.D60) :
    classify s = .ok (specClassify s) ∧
      (s.finesPercent = 50 →
        classify s ≠ .ok .CL ∧ classify s ≠ .ok .ML) := by
  have hmain : classify s = .ok (specClassify s) := by
    unfold classify specClassify
    rw [if_neg (not_lt.mpr hpl),
      if_neg (by push_neg; exact ⟨h10.ne', h30.ne', h60.ne'⟩)]
    simp only []
    split_ifs <;> rfl
  refine ⟨hmain, fun h50 => ?_⟩
  rw [hmain]
  unfold specClassify
  rw [h50, if_neg (lt_irrefl (50 : ℚ))]
  by_cases h12 : (50 : ℚ) > 12
  · rw [if_pos h12]
    exact ⟨(fun h => nomatch h), (fun h => nomatch h)⟩
  · norm_num at h12

/-- Witness for C1 at Scenario A's sample
{LL=40, PL=20, fines=60, D10=0.01, D30=0.05, D60=0.2}. -/
theorem classify_follows_spec_rules_witness :
    (20 : ℚ) ≤ 40 ∧ (0 : ℚ) < 0.01 ∧ (0 : ℚ) < 0.05 ∧ (0 : ℚ) < 0.2 ∧
      (classify ⟨40, 20, 60, 0.01, 0.05, 0.2⟩ =
        .ok (specClassify ⟨40, 20, 60, 0.01, 0.05, 0.2⟩) ∧
      ((60 : ℚ) = 50 →
        classify ⟨40, 20, 60, 0.01, 0.05, 0.2⟩ ≠ .ok .CL ∧
        classify ⟨40, 20, 60, 0.01, 0.05, 0.2⟩ ≠ .ok .ML)) :=
  And.intro (by norm_num) (And.intro (by norm_num) (And.intro (by norm_num)
    (And.intro (by norm_num)
      (classify_follows_spec_rules ⟨40, 20, 60, 0.01, 0.05, 0.2⟩
        (by norm_num) (by norm_num) (by norm_num) (by norm_num)))))

/-- Claim C8: `classify` fails exactly when liquidLimit < plasticLimit or
some D-value is 0, with an error naming the violated constraint, and
returns a SoilType on every other input. -/
theorem classify_validation (s : SoilSample) :
    ((∃ e, classify s = .error e) ↔
      (s.liquidLimit < s.plasticLimit ∨ s.D10 = 0 ∨ s.D30 = 0 ∨ s.D60 = 0)) ∧
    (s.liquidLimit < s.plasticLimit → classify s = .error .llLessThanPl) ∧
    (¬ s.liquidLimit < s.plasticLimit → (s.D10 = 0 ∨ s.D30 = 0 ∨ s.D60 = 0) →
      classify s = .error .dEqualsZero) ∧
    (¬ (s.liquidLimit < s.plasticLimit ∨ s.D10 = 0 ∨ s.D30 = 0 ∨ s.D60 = 0) →
      ∃ t, classify s = .ok t) := by
  by_cases hll : s.liquidLimit < s.plasticLimit
  · have h : classify s = .error .llLessThanPl := by
      unfold classify; rw [if_pos hll]
    exact ⟨⟨fun _ => .inl hll, fun _ => ⟨_, h⟩⟩, fun _ => h,
      fun hc _ => absurd hll hc, fun hc => absurd (.inl hll) hc⟩
  · by_cases hd : s.D10 = 0 ∨ s.D30 = 0 ∨ s.D60 = 0
    · have h : classify s = .error .dEqualsZero := by
        unfold classify; rw [if_neg hll, if_pos hd]
      exact ⟨⟨fun _ => .inr hd, fun _ => ⟨_, h⟩⟩, fun hc => absurd hc hll,
        fun _ _ => h, fun hc => absurd (.inr hd) hc⟩
    · have h : classify s = .ok (specClassify s) := by
        unfold classify specClassify
        rw [if_neg hll, if_neg hd]
        simp only []
        split_ifs <;> rfl
      refine ⟨⟨fun ⟨e, he⟩ => ?_, fun hc => ((not_or.mpr ⟨hll, hd⟩) hc).elim⟩,
        fun hc => absurd hc hll, fun _ hc => absurd hc hd,
        fun _ => ⟨specClassify s, h⟩⟩
      rw [h] at he; cases he

/-- Witness for C8: on the sample with LL = 10 < PL = 20 the validation
error names the liquid-limit constraint. -/
theorem classify_validation_witness :
    classify ⟨10, 20, 60, 0.01, 0.05, 0.2⟩ = .error .llLessThanPl :=
  (classify_validation ⟨10, 20, 60, 0.01, 0.05, 0.2⟩).2.1 (by norm_num)

/-- Claim C5: `mapZone` is total and deterministic with CL ↦ III,
ML, SM ↦ IV, SW, SP ↦ II, and Zone V is never produced. -/
theorem mapZone_total :
    mapZone .CL = .III ∧ mapZone .ML = .IV ∧ mapZone .SM = .IV ∧
    mapZone .SW = .II ∧ mapZone .SP = .II ∧ ∀ t, mapZone t ≠ .V := by
  refine ⟨rfl, rfl, rfl, rfl, rfl, fun t => ?_⟩
  cases t <;> decide

/-- Claim C6: `groundMotion` computes `amax = Z·S·9.81` and
`amax_g = amax/9.81 = Z·S` exactly, totally, for every zone and
amplification factor; Zone II with S = 1.0 gives ratio 0.10 and Zone IV
with S = 1.5 gives ratio 0.36. -/
theorem groundMotion_exact :
    (∀ (z : SeismicZone) (S : ℚ),
      (groundMotion z S).amax = zoneFactor z * S * 9.81 ∧
      (groundMotion z S).amax_g = (groundMotion z S).amax / 9.81 ∧
      (groundMotion z S).amax_g = zoneFactor z * S) ∧
    (groundMotion .II 1.0).amax_g = 0.10 ∧
    (groundMotion .IV 1.5).amax_g = 0.36 := by
  refine ⟨fun z S => ⟨rfl, rfl, ?_⟩, by norm_num [groundMotion, zoneFactor],
    by norm_num [groundMotion, zoneFactor]⟩
  unfold groundMotion
  field_simp


/-- Claim C7: the computed stresses satisfy σv′ ≤ σv whenever
waterTableDepth ≥ 0, and when the water table is at or below the layer
depth there is no pore pressure contribution, so σv′ = σv. -/
theorem effStress_le_totalStress (p : SiteProfile) (hw : 0 ≤ p.waterTableDepth) :
    effStress p ≤ totalStress p ∧
      (p.depth ≤ p.waterTableDepth → effStress p = totalStress p) := by
  constructor
  · rw [effStress_eq_max]
    have h : (0 : ℝ) ≤ 9.81 * max (p.depth - p.waterTableDepth) 0 :=
      mul_nonneg (by norm_num) (le_max_right _ _)
    linarith
  · intro hd
    unfold effStress
    rw [if_neg (not_lt.mpr hd)]
    ring

/-- Witness for C7 at Scenario B's profile
{depth=5, unitWeight=18, waterTableDepth=2, sptN=10}. -/
theorem effStress_le_totalStress_witness :
    (0 : ℝ) ≤ 2 ∧
      (effStress ⟨5, 18, 2, 10⟩ ≤ totalStress ⟨5, 18, 2, 10⟩ ∧
        ((5 : ℝ) ≤ 2 → effStress ⟨5, 18, 2, 10⟩ = totalStress ⟨5, 18, 2, 10⟩)) :=
  ⟨by norm_num, effStress_le_totalStress ⟨5, 18, 2, 10⟩ (by norm_num)⟩

/-- Claim C3: whenever the effective vertical stress is ≤ 0, `evaluate`
signals the invalid-stress error and produces no LiquefactionResult. -/
theorem evaluate_invalid_stress (p : SiteProfile) (a : ℝ)
    (h : effStress p ≤ 0) :
    evaluate p a = .error .invalidStress := by
  unfold evaluate
  rw [if_neg (not_lt.mpr h)]

/-- Witness for C3: depth 10 m, unit weight 5 kN/m³, water table at the
surface gives σv′ = 50 − 98.1 < 0. -/
theorem evaluate_invalid_stress_witness :
    effStress ⟨10, 5, 0, 10⟩ ≤ 0 ∧
      evaluate ⟨10, 5, 0, 10⟩ 0.24 = .error .invalidStress :=
  ⟨by norm_num [effStress, totalStress],
    evaluate_invalid_stress ⟨10, 5, 0, 10⟩ 0.24
      (by norm_num [effStress, totalStress])⟩

/-- Claim C10: when σv′ ≤ 0 the overburden correction is still total:
the guard defines Cn = 0, hence N1_60 = sptN · 0 = 0, with no division by
zero or square root of a negative number. -/
theorem Cn_guard_total (p : SiteProfile) (h : effStress p ≤ 0) :
    Cn p = 0 ∧ N1_60 p = 0 := by
  have hc : Cn p = 0 := by
    unfold Cn
    rw [if_neg (not_lt.mpr h)]
  refine ⟨hc, ?_⟩
  unfold N1_60
  rw [hc, mul_zero]

/-- Witness for C10: the same invalid-stress regime, σv′ = 50 − 98.1 < 0,
with sptN = 3. -/
theorem Cn_guard_total_witness :
    effStress ⟨10, 5, 0, 3⟩ ≤ 0 ∧ (Cn ⟨10, 5, 0, 3⟩ = 0 ∧ N1_60 ⟨10, 5, 0, 3⟩ = 0) :=
  ⟨by norm_num [effStress, totalStress],
    Cn_guard_total ⟨10, 5, 0, 3⟩ (by norm_num [effStress, totalStress])⟩

/-- Helper: whenever σv′ > 0, the success payload of `evaluate` is
field-for-field the spec's result record. -/
theorem evaluate_ok_spec_fields (p : SiteProfile) (a : ℝ)
    (heff : 0 < effStress p) :
    evaluate p a = .ok (specResult p a) := by
  have hE : effStress p =
      p.unitWeight * p.depth - 9.81 * max (p.depth - p.waterTableDepth) 0 := by
    rw [effStress_eq_max]; rfl
  have hCn : Cn p =
      Real.sqrt (100 /
        (p.unitWeight * p.depth - 9.81 * max (p.depth - p.waterTableDepth) 0)) := by
    unfold Cn
    rw [if_pos heff, hE]
  unfold evaluate specResult
  rw [if_pos heff]
  simp only [Except.ok.injEq, LiquefactionResult.mk.injEq]
  refine ⟨rfl, hE, rfl, hCn, ?_, ?_, ?_, ?_, ?_⟩
  · unfold N1_60
    rw [hCn]
  · unfold CSR totalStress rd
    rw [hE]
  · unfold CRR N1_60
    rw [hCn]
  · unfold FS CRR CSR N1_60 totalStress rd
    rw [hCn, hE]
  · unfold FS CRR CSR N1_60 totalStress rd
    rw [hCn, hE]

/-- C2 counterexample: the profile {depth=5, unitWeight=20,
waterTableDepth=5, sptN=10} satisfies every precondition of the original
claim (σv′ = 100 > 0, N1_60 = 10 ≠ 34), yet at amaxRatio = 0 the run
aborts in the line-131 division FS = CRR/CSR (CSR = 0), so no factor of
safety and no liquefaction verdict are computed. -/
theorem evaluate_crashes_at_zero_amax :
    (0 : ℝ) < 5 ∧ (0 : ℝ) < 20 ∧ (0 : ℝ) ≤ 5 ∧ 1 ≤ 10 ∧
      0 < effStress ⟨5, 20, 5, 10⟩ ∧ N1_60 ⟨5, 20, 5, 10⟩ ≠ 34 ∧
      evaluateRun ⟨5, 20, 5, 10⟩ 0 = none := by
  have heff : effStress ⟨5, 20, 5, 10⟩ = 100 := by
    norm_num [effStress, totalStress]
  have hN : N1_60 ⟨5, 20, 5, 10⟩ = 10 := by
    norm_num [N1_60, Cn, effStress, totalStress, Real.sqrt_one]
  refine ⟨by norm_num, by norm_num, by norm_num, by norm_num,
    by rw [heff]; norm_num, by rw [hN]; norm_num, ?_⟩
  unfold evaluateRun
  rw [if_pos (by rw [heff]; norm_num), if_neg (by rw [hN]; norm_num),
    if_neg (by rw [hN]; norm_num), if_pos (by unfold CSR; norm_num)]

/-- Claim C2 (amended: amaxRatio ≠ 0): for every admissible SiteProfile
and nonzero amaxRatio, whenever σv′ > 0 and N1_60 ≠ 34, Step 3 completes
and returns exactly the spec's step-by-step result: σv = γ·d,
σv′ = σv − 9.81·max(d − w, 0), rd = max(1 − 0.00765·d, 0.5),
Cn = √(100/σv′), N1_60 = sptN·Cn, CSR = 0.65·a·(σv/σv′)·rd, the CRR
formula, FS = CRR/CSR, and likely ⟺ FS < 1 (this is the `likely` field
of `specResult`). -/
theorem evaluateRun_follows_spec (p : SiteProfile) (a : ℝ)
    (hd : 0 < p.depth) (hg : 0 < p.unitWeight) (hw : 0 ≤ p.waterTableDepth)
    (hn : 1 ≤ p.sptN) (ha : a ≠ 0) (heff : 0 < effStress p)
    (h34 : N1_60 p ≠ 34) :
    evaluateRun p a = some (.ok (specResult p a)) := by
  have h34' : ¬(34 - N1_60 p = 0) := sub_ne_zero.mpr (Ne.symm h34)
  have hCn0 : 0 ≤ Cn p := by
    unfold Cn
    rw [if_pos heff]
    exact Real.sqrt_nonneg _
  have hN0 : (0 : ℝ) ≤ N1_60 p := mul_nonneg (Nat.cast_nonneg _) hCn0
  have h45 : ¬((10 * N1_60 p + 45 : ℝ) ^ 2 = 0) :=
    pow_ne_zero _ (ne_of_gt (by linarith))
  have hrdpos : (0 : ℝ) < rd p :=
    lt_of_lt_of_le (by norm_num) (le_max_right _ _)
  have hCSR : ¬(CSR p a = 0) := by
    unfold CSR totalStress
    exact mul_ne_zero (mul_ne_zero (mul_ne_zero (by norm_num) ha)
      (div_ne_zero (ne_of_gt (mul_pos hg hd)) (ne_of_gt heff))) (ne_of_gt hrdpos)
  have h := evaluate_ok_spec_fields p a heff
  unfold evaluate at h
  rw [if_pos heff] at h
  unfold evaluateRun
  rw [if_pos heff, if_neg h34', if_neg h45, if_neg hCSR, h]

/-- Witness for C2 at profile {depth=5, unitWeight=20, waterTableDepth=5,
sptN=10} with amaxRatio 0.24: σv′ = 100 and N1_60 = 10. -/
theorem evaluateRun_follows_spec_witness :
    (0 : ℝ) < 5 ∧ (0 : ℝ) < 20 ∧ (0 : ℝ) ≤ 5 ∧ 1 ≤ 10 ∧ (0.24 : ℝ) ≠ 0 ∧
      0 < effStress ⟨5, 20, 5, 10⟩ ∧ N1_60 ⟨5, 20, 5, 10⟩ ≠ 34 ∧
      evaluateRun ⟨5, 20, 5, 10⟩ 0.24 =
        some (.ok (specResult ⟨5, 20, 5, 10⟩ 0.24)) :=
  ⟨by norm_num, by norm_num, by norm_num, by norm_num, by norm_num,
    by norm_num [effStress, totalStress],
    by norm_num [N1_60, Cn, effStress, totalStress, Real.sqrt_one],
    evaluateRun_follows_spec ⟨5, 20, 5, 10⟩ 0.24 (by norm_num) (by norm_num)
      (by norm_num) (by norm_num) (by norm_num)
      (by norm_num [effStress, totalStress])
      (by norm_num [N1_60, Cn, effStress, totalStress, Real.sqrt_one])⟩

/-- Claim C9: every soil type the classifier can output yields an
acceleration ratio in {0.10, 0.24, 0.288, 0.36}, hence strictly positive;
so in the composed pipeline CSR > 0 (in particular CSR ≠ 0) whenever
σv′ > 0, and FS = CRR/CSR never divides by zero. -/
theorem pipeline_CSR_pos (t : SoilType) (p : SiteProfile)
    (hd : 0 < p.depth) (hg : 0 < p.unitWeight) (heff : 0 < effStress p) :
    (pipelineAmaxG t = 0.10 ∨ pipelineAmaxG t = 0.24 ∨
      pipelineAmaxG t = 0.288 ∨ pipelineAmaxG t = 0.36) ∧
    0 < CSR p ((pipelineAmaxG t : ℚ) : ℝ) ∧
    CSR p ((pipelineAmaxG t : ℚ) : ℝ) ≠ 0 := by
  have hmem : pipelineAmaxG t = 0.10 ∨ pipelineAmaxG t = 0.24 ∨
      pipelineAmaxG t = 0.288 ∨ pipelineAmaxG t = 0.36 := by
    cases t <;>
      norm_num [pipelineAmaxG, groundMotion, mapZone, zoneFactor, amplification]
  have ha : (0 : ℚ) < pipelineAmaxG t := by
    rcases hmem with h | h | h | h <;> rw [h] <;> norm_num
  have haR : (0 : ℝ) < ((pipelineAmaxG t : ℚ) : ℝ) := by exact_mod_cast ha
  have hsv : 0 < totalStress p := mul_pos hg hd
  have hrd : (0 : ℝ) < rd p :=
    lt_of_lt_of_le (by norm_num) (le_max_right _ _)
  have hpos : 0 < CSR p ((pipelineAmaxG t : ℚ) : ℝ) := by
    unfold CSR
    exact mul_pos (mul_pos (mul_pos (by norm_num) haR) (div_pos hsv heff)) hrd
  exact ⟨hmem, hpos, ne_of_gt hpos⟩

/-- Witness for C9 with the CL soil type and the profile
{depth=5, unitWeight=20, waterTableDepth=5, sptN=10} (σv′ = 100). -/
theorem pipeline_CSR_pos_witness :
    (0 : ℝ) < 5 ∧ (0 : ℝ) < 20 ∧ 0 < effStress ⟨5, 20, 5, 10⟩ ∧
      0 < CSR ⟨5, 20, 5, 10⟩ ((pipelineAmaxG .CL : ℚ) : ℝ) :=
  ⟨by norm_num, by norm_num, by norm_num [effStress, totalStress],
    (pipeline_CSR_pos .CL ⟨5, 20, 5, 10⟩ (by norm_num) (by norm_num)
      (by norm_num [effStress, totalStress])).2.1⟩

/-- Claim C4 (divergence witness): at the profile {depth=5, unitWeight=20,
waterTableDepth=5, sptN=34}, σv′ = 100 so Cn = 1 and N1_60 = 34 exactly,
yet `evaluate` still returns a successful result — the denominator
34 − N1_60 of the CRR formula is 0 and no distinct numeric-domain error
is surfaced. -/
theorem evaluate_no_numeric_domain_guard :
    resultN160 (evaluate ⟨5, 20, 5, 34⟩ 0.24) = some 34 := by
  have heff : effStress ⟨5, 20, 5, 34⟩ = 100 := by
    norm_num [effStress, totalStress]
  have hN : N1_60 ⟨5, 20, 5, 34⟩ = 34 := by
    norm_num [N1_60, Cn, effStress, totalStress, Real.sqrt_one]
  unfold evaluate
  rw [if_pos (by rw [heff]; norm_num)]
  unfold resultN160
  rw [hN]
